import Mathlib

/-!
Shallow embedding of the access-control layer of the open-crm repository
(Flask CRM application). The definitions below are translated directly from
the Python source files:

  - app/models.py       : RoleEnum, User role predicates, entity records
  - app/routes/main.py  : role_required decorator, page handlers
  - app/routes/api.py   : JSON API handlers
  - app/admin.py        : Flask-Admin console gates

Database rows become Lean structures holding exactly the fields the
authorization logic inspects; SQLAlchemy queries over them become pure list
operations on an explicit database state. Nullable foreign keys become
Option Nat. The theorems at the end of the file settle the specification
claims against these definitions.
-/

namespace OpenCrm

/-- Role name strings, mirroring RoleEnum in app/models.py
(ADMIN = admin, MANAGER = manager, EMPLOYEE = employee). -/
def RoleEnum_ADMIN : String := "admin"

def RoleEnum_MANAGER : String := "manager"

def RoleEnum_EMPLOYEE : String := "employee"

/-- UserRole row (app/models.py): only the name field participates in
authorization decisions. -/
structure UserRole where
  name : String
  deriving DecidableEq, Repr

/-- The authenticated caller: the fields of the User model (app/models.py)
that the route handlers read, plus the flask_login is_authenticated flag. -/
structure Principal where
  id : Nat
  role : UserRole
  is_authenticated : Bool
  deriving DecidableEq, Repr

/-- User.is_admin property (app/models.py line 77). -/
def Principal.is_admin (p : Principal) : Bool :=
  p.role.name == RoleEnum_ADMIN

/-- User.is_manager property (app/models.py line 81). -/
def Principal.is_manager (p : Principal) : Bool :=
  p.role.name == RoleEnum_MANAGER

/-- User.is_employee property (app/models.py line 85). -/
def Principal.is_employee (p : Principal) : Bool :=
  p.role.name == RoleEnum_EMPLOYEE

/-- Customer row (app/models.py): id plus the nullable owning-user
foreign key assigned_user_id. -/
structure Customer where
  id : Nat
  assigned_user_id : Option Nat
  deriving DecidableEq, Repr

/-- Contact row (app/models.py): customer_id is nullable=False, so it is a
plain Nat; a contact has no owner field of its own. -/
structure Contact where
  id : Nat
  customer_id : Nat
  deriving DecidableEq, Repr

/-- Lead row (app/models.py): direct nullable owner assigned_user_id. -/
structure Lead where
  id : Nat
  assigned_user_id : Option Nat
  customer_id : Option Nat
  deriving DecidableEq, Repr

/-- Opportunity row (app/models.py): direct nullable owner plus the amount
column (Float in the source; modelled as Int, only counting and summation
touch it). -/
structure Opportunity where
  id : Nat
  assigned_user_id : Option Nat
  customer_id : Nat
  amount : Int
  deriving DecidableEq, Repr

/-- Activity row (app/models.py): user_id is nullable=False. -/
structure Activity where
  id : Nat
  title : String
  description : Option String
  activity_type : String
  user_id : Nat
  due_date : Option Nat
  completed : Bool
  deriving DecidableEq, Repr

/-- Document row (app/models.py): nullable customer_id, mandatory
uploaded_by. -/
structure Document where
  id : Nat
  customer_id : Option Nat
  uploaded_by : Nat
  deriving DecidableEq, Repr

/-- The persistent state visible to the handlers: one list per table, in
database order (SQLAlchemy .all() returns rows in a stable order). -/
structure DB where
  customers : List Customer
  contacts : List Contact
  leads : List Lead
  opportunities : List Opportunity
  activities : List Activity
  documents : List Document
  deriving DecidableEq, Repr

/-- Model.query.get: primary-key lookup. -/
def DB.findCustomer (db : DB) (i : Nat) : Option Customer :=
  db.customers.find? (fun c => c.id == i)

def DB.findContact (db : DB) (i : Nat) : Option Contact :=
  db.contacts.find? (fun c => c.id == i)

def DB.findActivity (db : DB) (i : Nat) : Option Activity :=
  db.activities.find? (fun a => a.id == i)

def DB.findDocument (db : DB) (i : Nat) : Option Document :=
  db.documents.find? (fun d => d.id == i)

/-- Outcome of the role_required decorator (app/routes/main.py lines 9-24):
redirect to the login page, redirect to the dashboard with a permission
flash, or fall through to the wrapped handler. -/
inductive GuardResult
  | redirectLogin
  | redirectDashboard
  | proceed
  deriving DecidableEq, Repr

/-- role_required decorator (app/routes/main.py lines 9-24): deny with a
login redirect when unauthenticated; deny with a dashboard redirect when
current_user.role.name is not among the required role names; otherwise run
the wrapped handler. -/
def role_required (roles : List String) (p : Principal) : GuardResult :=
  if !p.is_authenticated then
    GuardResult.redirectLogin
  else if !(roles.contains p.role.name) then
    GuardResult.redirectDashboard
  else
    GuardResult.proceed

/-- customers page handler body (app/routes/main.py lines 57-70): full table
for admin or manager, otherwise only rows with assigned_user_id equal to the
current user id (filter_by never matches a NULL foreign key). -/
def customers_page (db : DB) (p : Principal) : List Customer :=
  if p.is_admin || p.is_manager then
    db.customers
  else
    db.customers.filter (fun c => c.assigned_user_id == some p.id)

/-- GET /api/customers handler (app/routes/api.py lines 114-122): same
role-scoped query as the customers page. -/
def get_customers (db : DB) (p : Principal) : List Customer :=
  if p.is_admin || p.is_manager then
    db.customers
  else
    db.customers.filter (fun c => c.assigned_user_id == some p.id)

/-- GET /api/contacts handler (app/routes/api.py lines 344-349): returns
Contact.query.all() with no ownership filtering; the principal is only
checked for authentication upstream. -/
def get_contacts (db : DB) (_p : Principal) : List Contact :=
  db.contacts

/-- GET /api/leads handler (app/routes/api.py lines 419-439): returns
Lead.query.all() with no ownership filtering. -/
def get_leads (db : DB) (_p : Principal) : List Lead :=
  db.leads

/-- GET /api/opportunities handler (app/routes/api.py lines 496-518):
returns Opportunity.query.all() with no ownership filtering. -/
def get_opportunities (db : DB) (_p : Principal) : List Opportunity :=
  db.opportunities

/-- The counts rendered by the dashboard page (app/routes/main.py
lines 33-55). -/
structure DashboardCounts where
  customer_count : Nat
  lead_count : Nat
  opportunity_count : Nat
  activity_count : Nat
  deriving DecidableEq, Repr

/-- dashboard page handler (app/routes/main.py lines 33-55): customer,
lead and opportunity counts are unconditional table counts; only the
activity count is filtered by user_id. -/
def dashboard (db : DB) (p : Principal) : DashboardCounts :=
  { customer_count := db.customers.length
    lead_count := db.leads.length
    opportunity_count := db.opportunities.length
    activity_count := (db.activities.filter (fun a => a.user_id == p.id)).length }

/-- The JSON payload of GET /api/dashboard/stats (app/routes/api.py
lines 647-671). -/
structure DashboardStats where
  customer_count : Nat
  lead_count : Nat
  opportunity_count : Nat
  total_opportunity_value : Int
  deriving DecidableEq, Repr

/-- dashboard_stats handler (app/routes/api.py lines 647-671): full-table
counts for admin or manager, counts filtered by assigned_user_id otherwise
(SUM over an empty set falls back to 0 via the or-0 guard). -/
def dashboard_stats (db : DB) (p : Principal) : DashboardStats :=
  if p.is_admin || p.is_manager then
    { customer_count := db.customers.length
      lead_count := db.leads.length
      opportunity_count := db.opportunities.length
      total_opportunity_value := (db.opportunities.map (fun o => o.amount)).sum }
  else
    { customer_count := (db.customers.filter (fun c => c.assigned_user_id == some p.id)).length
      lead_count := (db.leads.filter (fun l => l.assigned_user_id == some p.id)).length
      opportunity_count := (db.opportunities.filter (fun o => o.assigned_user_id == some p.id)).length
      total_opportunity_value :=
        ((db.opportunities.filter (fun o => o.assigned_user_id == some p.id)).map
          (fun o => o.amount)).sum }

/-- SecureModelView.is_accessible (app/admin.py lines 8-21): authenticated
and admin-or-manager. -/
def SecureModelView_is_accessible (p : Principal) : Bool :=
  p.is_authenticated && (p.is_admin || p.is_manager)

/-- AdminOnlyModelView.is_accessible (app/admin.py lines 23-32):
authenticated and admin. -/
def AdminOnlyModelView_is_accessible (p : Principal) : Bool :=
  p.is_authenticated && p.is_admin

/-- RoleAdmin (app/admin.py lines 46-49) subclasses AdminOnlyModelView and
does not override is_accessible. -/
def RoleAdmin_is_accessible (p : Principal) : Bool :=
  AdminOnlyModelView_is_accessible p

/-- Outcome of the admin index view: login redirect, dashboard redirect, or
the rendered console index. -/
inductive AdminIndexResult
  | redirectLogin
  | redirectDashboard
  | renderIndex
  deriving DecidableEq, Repr

/-- SecureAdminIndexView.index (app/admin.py lines 102-114): unauthenticated
callers are sent to login, authenticated non-elevated callers to the
dashboard, elevated callers see the console index. -/
def SecureAdminIndexView_index (p : Principal) : AdminIndexResult :=
  if !p.is_authenticated then
    AdminIndexResult.redirectLogin
  else if !(p.is_admin || p.is_manager) then
    AdminIndexResult.redirectDashboard
  else
    AdminIndexResult.renderIndex

/-- The console sections registered with the SecureModelView access rule
(app/admin.py lines 34-100 and 116-133); RoleAdmin is registered separately
under the AdminOnlyModelView rule. -/
inductive ConsoleSection
  | userAdmin
  | customerAdmin
  | contactAdmin
  | leadAdmin
  | opportunityAdmin
  | activityAdmin
  | documentAdmin
  deriving DecidableEq, Repr

/-- Each SecureModelView subclass in app/admin.py inherits is_accessible
from SecureModelView without overriding it. -/
def section_is_accessible : ConsoleSection → Principal → Bool
  | ConsoleSection.userAdmin, p => SecureModelView_is_accessible p
  | ConsoleSection.customerAdmin, p => SecureModelView_is_accessible p
  | ConsoleSection.contactAdmin, p => SecureModelView_is_accessible p
  | ConsoleSection.leadAdmin, p => SecureModelView_is_accessible p
  | ConsoleSection.opportunityAdmin, p => SecureModelView_is_accessible p
  | ConsoleSection.activityAdmin, p => SecureModelView_is_accessible p
  | ConsoleSection.documentAdmin, p => SecureModelView_is_accessible p

/-- Document.customer ORM relationship: resolves the nullable customer_id
foreign key against the customer table. -/
def DB.documentCustomer (db : DB) (d : Document) : Option Customer :=
  d.customer_id.bind (fun cid => db.findCustomer cid)

/-- Python truthiness of the optional customer_id query argument in
list_documents (0 and absent are both falsy). -/
def pyTruthy : Option Nat → Bool
  | none => false
  | some n => n != 0

/-- GET /api/documents handler (app/routes/api.py lines 57-71): optional
customer_id filter, then for non-elevated callers an inner join on
Document.customer filtered to customers assigned to the caller. The inner
join drops documents whose customer_id is NULL or dangling. The trailing
order_by only sorts by creation time and is omitted here; the claims about
this handler concern membership only. -/
def list_documents (db : DB) (p : Principal) (customer_id : Option Nat) : List Document :=
  let docs :=
    if pyTruthy customer_id then
      db.documents.filter (fun d => d.customer_id == customer_id)
    else
      db.documents
  if !(p.is_admin || p.is_manager) then
    docs.filter (fun d =>
      match db.documentCustomer d with
      | none => false
      | some c => c.assigned_user_id == some p.id)
  else
    docs

/-- Outcome of GET /api/documents/id (app/routes/api.py lines 74-87). -/
inductive DownloadResult
  | notFound
  | permissionDenied
  | sendFile (d : Document)
  deriving DecidableEq, Repr

/-- download_document handler (app/routes/api.py lines 74-87): 404 when the
document does not exist; when the document has a resolvable customer and
the caller is not elevated, deny unless the customer is assigned to the
caller; in every other case send the file. -/
def download_document (db : DB) (p : Principal) (document_id : Nat) : DownloadResult :=
  match db.findDocument document_id with
  | none => DownloadResult.notFound
  | some doc =>
    match db.documentCustomer doc with
    | some cust =>
      if !(p.is_admin || p.is_manager) && cust.assigned_user_id != some p.id then
        DownloadResult.permissionDenied
      else
        DownloadResult.sendFile doc
    | none => DownloadResult.sendFile doc

/-- GET /api/customers/id handler (app/routes/api.py lines 148-155):
get_or_404 then serialize the full record; the principal is never consulted
in the body. -/
def get_customer (db : DB) (_p : Principal) (i : Nat) : Option Customer :=
  db.findCustomer i

/-- GET /api/contacts/id handler (app/routes/api.py lines 376-381):
get_or_404 then serialize the full record; the principal is never consulted
in the body. -/
def get_contact (db : DB) (_p : Principal) (i : Nat) : Option Contact :=
  db.findContact i

/-- The JSON body of a PUT /api/activities/id request: each field is
present or absent. -/
structure ActivityUpdateData where
  title : Option String
  description : Option String
  activity_type : Option String
  due_date : Option Nat
  completed : Option Bool
  deriving DecidableEq, Repr

/-- Error outcomes of the activity mutation endpoints. -/
inductive ApiError
  | notFound
  | permissionDenied
  deriving DecidableEq, Repr

/-- Field-by-field update applied by update_activity (app/routes/api.py
lines 619-625): data.get with the current value as fallback; due_date keeps
the old value when the key is absent. -/
def apply_activity_update (data : ActivityUpdateData) (a : Activity) : Activity :=
  { a with
    title := data.title.getD a.title
    description :=
      match data.description with
      | some s => some s
      | none => a.description
    activity_type := data.activity_type.getD a.activity_type
    due_date :=
      match data.due_date with
      | some d => some d
      | none => a.due_date
    completed := data.completed.getD a.completed }

/-- PUT /api/activities/id handler (app/routes/api.py lines 609-629):
get_or_404, then allow only the owner or an admin or manager; a denied
request returns a 403 Permission denied error and commits nothing. -/
def update_activity (db : DB) (p : Principal) (i : Nat) (data : ActivityUpdateData) :
    Except ApiError String × DB :=
  match db.findActivity i with
  | none => (Except.error ApiError.notFound, db)
  | some activity =>
    if !(p.is_admin || p.is_manager || activity.user_id == p.id) then
      (Except.error ApiError.permissionDenied, db)
    else
      (Except.ok "Activity updated successfully",
        { db with
          activities :=
            db.activities.map (fun a =>
              if a.id == i then apply_activity_update data a else a) })

/-- DELETE /api/activities/id handler (app/routes/api.py lines 631-644):
get_or_404, then allow only the owner or an admin or manager; a denied
request returns a 403 Permission denied error and commits nothing. -/
def delete_activity (db : DB) (p : Principal) (i : Nat) :
    Except ApiError String × DB :=
  match db.findActivity i with
  | none => (Except.error ApiError.notFound, db)
  | some activity =>
    if !(p.is_admin || p.is_manager || activity.user_id == p.id) then
      (Except.error ApiError.permissionDenied, db)
    else
      (Except.ok "Activity deleted successfully",
        { db with activities := db.activities.eraseP (fun a => a.id == i) })

/-- An authenticated employee-role principal with user id 1, used by the
concrete-scenario theorems. -/
def empPrincipal : Principal := ⟨1, ⟨RoleEnum_EMPLOYEE⟩, true⟩

/-- An authenticated manager-role principal with user id 3. -/
def mgrPrincipal : Principal := ⟨3, ⟨RoleEnum_MANAGER⟩, true⟩

/-- A database whose contact, lead and opportunity all hang off user 2,
not user 1: the contact belongs to customer 2 (assigned to user 2), and
the lead and opportunity are directly assigned to user 2. -/
def dbListing : DB :=
  ⟨[⟨2, some 2⟩], [⟨1, 2⟩], [⟨1, some 2, none⟩], [⟨1, some 2, 2, 100⟩], [], []⟩

/-- The concrete scenario of the spec: customer 5 assigned to employee 1,
customer 7 assigned to employee 2. -/
def dbCustomers : DB := ⟨[⟨5, some 1⟩, ⟨7, some 2⟩], [], [], [], [], []⟩

/-- A database with one customer and one lead, both assigned to user 2. -/
def dbStats : DB := ⟨[⟨5, some 2⟩], [], [⟨1, some 2, none⟩], [], [], []⟩

/-- A database holding a single document with no associated customer. -/
def dbDocs : DB := ⟨[], [], [], [], [], [⟨1, none, 2⟩]⟩

/-- A database with one customer assigned to user 1, one document attached
to that customer, and one document with no customer. -/
def dbDocs2 : DB := ⟨[⟨9, some 1⟩], [], [], [], [], [⟨1, some 9, 2⟩, ⟨2, none, 2⟩]⟩

/-- A database with a customer owned by user 2 and a contact under it. -/
def dbReads : DB := ⟨[⟨5, some 2⟩], [⟨3, 5⟩], [], [], [], []⟩

/-- A database with a single activity owned by user 2. -/
def dbAct : DB := ⟨[], [], [], [], [⟨1, "call client", none, "call", 2, none, false⟩], []⟩

/-- An empty PUT body: every updatable field absent. -/
def noUpdate : ActivityUpdateData := ⟨none, none, none, none, none⟩

end OpenCrm

namespace OpenCrm

/-- Helper: an employee-role principal satisfies neither is_admin nor
is_manager. -/
theorem employee_not_elevated (p : Principal) (h : p.role.name = RoleEnum_EMPLOYEE) :
    (p.is_admin || p.is_manager) = false := by
  simp only [Principal.is_admin, Principal.is_manager, h, RoleEnum_EMPLOYEE,
    RoleEnum_ADMIN, RoleEnum_MANAGER]
  decide

/-- Helper: a manager-role or admin-role principal satisfies the inline
elevation test used throughout the handlers. -/
theorem elevated_role_test (p : Principal)
    (h : p.role.name = RoleEnum_MANAGER ∨ p.role.name = RoleEnum_ADMIN) :
    (p.is_admin || p.is_manager) = true := by
  rcases h with h | h <;>
    simp only [Principal.is_admin, Principal.is_manager, h, RoleEnum_ADMIN,
      RoleEnum_MANAGER] <;>
    decide

/-- Helper: a manager-role principal does not satisfy is_admin. -/
theorem manager_not_admin (p : Principal) (h : p.role.name = RoleEnum_MANAGER) :
    p.is_admin = false := by
  simp only [Principal.is_admin, h, RoleEnum_ADMIN, RoleEnum_MANAGER]
  decide

/-- C1: for an authenticated principal and a non-empty required-role list,
role_required proceeds iff the principal role name is a member of the list;
whenever it is not a member the request is denied (dashboard redirect), with
no implicit elevation for an administrator not listed. -/
theorem role_required_membership (roles : List String) (p : Principal)
    (hauth : p.is_authenticated = true) (hne : roles ≠ []) :
    (role_required roles p = GuardResult.proceed ↔ p.role.name ∈ roles)
    ∧ (p.role.name ∉ roles → role_required roles p = GuardResult.redirectDashboard)
    ∧ (p.role.name = RoleEnum_ADMIN → RoleEnum_ADMIN ∉ roles →
        role_required roles p = GuardResult.redirectDashboard) := by
  refine ⟨?_, ?_, ?_⟩
  · constructor
    · intro h
      by_contra hmem
      simp [role_required, hauth, hmem] at h
    · intro hmem
      simp [role_required, hauth, hmem]
  · intro hmem
    simp [role_required, hauth, hmem]
  · intro hadmin hmem
    have hmem2 : p.role.name ∉ roles := by rw [hadmin]; exact hmem
    simp [role_required, hauth, hmem2]

/-- Witness for role_required_membership: the manager role, required set
containing admin and manager. -/
theorem role_required_membership_witness :
    (role_required [RoleEnum_ADMIN, RoleEnum_MANAGER]
        ⟨7, ⟨RoleEnum_MANAGER⟩, true⟩ = GuardResult.proceed
      ↔ (⟨RoleEnum_MANAGER⟩ : UserRole).name ∈ [RoleEnum_ADMIN, RoleEnum_MANAGER]) :=
  (role_required_membership [RoleEnum_ADMIN, RoleEnum_MANAGER]
    ⟨7, ⟨RoleEnum_MANAGER⟩, true⟩ rfl (by decide)).1

/-- C2: the listing endpoints for contacts, leads and opportunities are NOT
ownership-scoped: an employee-role principal receives records belonging to
another user. The contact belongs to customer 2 assigned to user 2, and the
lead and opportunity are assigned to user 2, yet all are returned to
employee 1. This evaluates the code at the failing input of the code_bug
verdict. -/
theorem listing_endpoints_unscoped_for_employee :
    empPrincipal.is_employee = true
    ∧ get_contacts dbListing empPrincipal = [⟨1, 2⟩]
    ∧ get_leads dbListing empPrincipal = [⟨1, some 2, none⟩]
    ∧ get_opportunities dbListing empPrincipal = [⟨1, some 2, 2, 100⟩]
    ∧ (⟨1, some 2, none⟩ : Lead).assigned_user_id ≠ some empPrincipal.id
    ∧ (⟨1, some 2, 2, 100⟩ : Opportunity).assigned_user_id ≠ some empPrincipal.id
    ∧ (dbListing.findCustomer 2).map Customer.assigned_user_id = some (some 2) := by
  decide

/-- C3: for an employee-role principal, both the customers page and the
customers API return only customers whose assigned_user_id equals the
principal id. -/
theorem scope_customers_owned_only (db : DB) (p : Principal)
    (hemp : p.role.name = RoleEnum_EMPLOYEE) :
    (∀ c ∈ customers_page db p, c.assigned_user_id = some p.id)
    ∧ (∀ c ∈ get_customers db p, c.assigned_user_id = some p.id) := by
  have hne := employee_not_elevated p hemp
  constructor <;> intro c hc
  · rw [customers_page, hne] at hc
    simp only [Bool.false_eq_true, if_false, List.mem_filter, beq_iff_eq] at hc
    exact hc.2
  · rw [get_customers, hne] at hc
    simp only [Bool.false_eq_true, if_false, List.mem_filter, beq_iff_eq] at hc
    exact hc.2

/-- Witness for scope_customers_owned_only: employee 1 sees exactly
customer 5 out of the customers 5 and 7 of the concrete spec scenario. -/
theorem scope_customers_owned_only_witness :
    get_customers dbCustomers empPrincipal = [⟨5, some 1⟩]
    ∧ (⟨5, some 1⟩ : Customer).assigned_user_id = some empPrincipal.id :=
  ⟨by decide,
   (scope_customers_owned_only dbCustomers empPrincipal rfl).2 ⟨5, some 1⟩ (by decide)⟩

/-- C4: for an elevated (manager or admin) principal the customer scope
filter is the identity on both surfaces, and for every principal the result
is an order-preserving sublist of the table (the filter only removes,
never reorders; determinism is immediate since both handlers are pure
functions of the database and principal). -/
theorem scope_elevated_identity (db : DB) (p : Principal)
    (helev : p.role.name = RoleEnum_MANAGER ∨ p.role.name = RoleEnum_ADMIN) :
    customers_page db p = db.customers
    ∧ get_customers db p = db.customers
    ∧ (∀ q : Principal, (customers_page db q).Sublist db.customers
        ∧ (get_customers db q).Sublist db.customers) := by
  have h := elevated_role_test p helev
  refine ⟨by rw [customers_page, h, if_pos rfl], by rw [get_customers, h, if_pos rfl], ?_⟩
  intro q
  constructor
  · rw [customers_page]
    split
    · exact List.Sublist.refl _
    · exact List.filter_sublist _
  · rw [get_customers]
    split
    · exact List.Sublist.refl _
    · exact List.filter_sublist _

/-- Witness for scope_elevated_identity: the manager sees customers 5 and 7
unchanged and in order. -/
theorem scope_elevated_identity_witness :
    get_customers dbCustomers mgrPrincipal = dbCustomers.customers :=
  (scope_elevated_identity dbCustomers mgrPrincipal (Or.inl rfl)).2.1

/-- C5: the dashboard page and the API stats endpoint disagree for an
employee-role principal: with one customer and one lead both assigned to
user 2, the dashboard page reports counts 1 and 1 to employee 1 while the
stats API reports 0 and 0. This evaluates the code at the failing input of
the code_bug verdict. -/
theorem dashboard_page_and_stats_api_disagree :
    empPrincipal.is_employee = true
    ∧ (dashboard dbStats empPrincipal).customer_count = 1
    ∧ (dashboard_stats dbStats empPrincipal).customer_count = 0
    ∧ (dashboard dbStats empPrincipal).lead_count = 1
    ∧ (dashboard_stats dbStats empPrincipal).lead_count = 0 := by
  decide

/-- C6: console entry for an authenticated principal: denied (with a
dashboard redirect at the index) for the employee role, granted for the
manager and admin roles, uniformly over every console section registered
under the SecureModelView rule. -/
theorem console_entry_gate (p : Principal) (s : ConsoleSection)
    (hauth : p.is_authenticated = true) :
    (p.role.name = RoleEnum_EMPLOYEE →
      section_is_accessible s p = false
      ∧ SecureModelView_is_accessible p = false
      ∧ SecureAdminIndexView_index p = AdminIndexResult.redirectDashboard)
    ∧ (p.role.name = RoleEnum_MANAGER ∨ p.role.name = RoleEnum_ADMIN →
      section_is_accessible s p = true
      ∧ SecureModelView_is_accessible p = true
      ∧ SecureAdminIndexView_index p = AdminIndexResult.renderIndex) := by
  constructor
  · intro hemp
    have hne := employee_not_elevated p hemp
    cases s <;>
      simp [section_is_accessible, SecureModelView_is_accessible,
        SecureAdminIndexView_index, hauth, hne]
  · intro helev
    have h := elevated_role_test p helev
    cases s <;>
      simp [section_is_accessible, SecureModelView_is_accessible,
        SecureAdminIndexView_index, hauth, h]

/-- Witness for console_entry_gate: the manager principal enters the
console and sees the user-management section. -/
theorem console_entry_gate_witness :
    SecureModelView_is_accessible mgrPrincipal = true
    ∧ SecureAdminIndexView_index mgrPrincipal = AdminIndexResult.renderIndex := by
  have h := (console_entry_gate mgrPrincipal ConsoleSection.userAdmin rfl).2 (Or.inl rfl)
  exact ⟨h.2.1, h.2.2⟩

/-- C7: the role-management console view is accessible exactly to the admin
role; in particular a manager-role principal is denied there even though
the general console entry admits them. -/
theorem role_management_admin_only (p : Principal)
    (hauth : p.is_authenticated = true) :
    (RoleAdmin_is_accessible p = true ↔ p.role.name = RoleEnum_ADMIN)
    ∧ (p.role.name = RoleEnum_MANAGER →
        RoleAdmin_is_accessible p = false
        ∧ SecureModelView_is_accessible p = true) := by
  constructor
  · rw [RoleAdmin_is_accessible, AdminOnlyModelView_is_accessible, hauth]
    simp [Principal.is_admin]
  · intro hmgr
    refine ⟨?_, ?_⟩
    · rw [RoleAdmin_is_accessible, AdminOnlyModelView_is_accessible, hauth,
        manager_not_admin p hmgr]
      decide
    · rw [SecureModelView_is_accessible, hauth, elevated_role_test p (Or.inl hmgr)]
      decide

/-- Witness for role_management_admin_only: the manager is denied on the
roles view but admitted by the general console rule. -/
theorem role_management_admin_only_witness :
    RoleAdmin_is_accessible mgrPrincipal = false
    ∧ SecureModelView_is_accessible mgrPrincipal = true :=
  (role_management_admin_only mgrPrincipal rfl).2 rfl

/-- C8 counterexample: employee 1 CAN retrieve the document with no
associated customer through single-document download, even though the same
document is excluded from the document listing; this refutes the claim that
unresolvable-owner entities are excluded from single-document retrieval for
non-elevated principals. -/
theorem download_unowned_document_allowed_for_employee :
    empPrincipal.is_employee = true
    ∧ (dbDocs.findDocument 1).map Document.customer_id = some none
    ∧ download_document dbDocs empPrincipal 1 = DownloadResult.sendFile ⟨1, none, 2⟩
    ∧ list_documents dbDocs empPrincipal none = [] := by
  decide

/-- C8 amended: for a non-elevated principal, every document in the listing
resolves to a customer assigned to that principal (so unowned documents are
excluded from listings), but single-document download sends any document
whose customer cannot be resolved. -/
theorem unowned_documents_listing_vs_download (db : DB) (p : Principal)
    (arg : Option Nat) (hne : (p.is_admin || p.is_manager) = false) :
    (∀ d ∈ list_documents db p arg,
      ∃ c : Customer, db.documentCustomer d = some c ∧ c.assigned_user_id = some p.id)
    ∧ (∀ i d, db.findDocument i = some d → db.documentCustomer d = none →
        download_document db p i = DownloadResult.sendFile d) := by
  constructor
  · intro d hd
    simp only [list_documents, hne, Bool.not_false, if_true] at hd
    rw [List.mem_filter] at hd
    have hpred := hd.2
    cases hcust : db.documentCustomer d with
    | none => rw [hcust] at hpred; exact absurd hpred (by simp)
    | some c =>
      rw [hcust] at hpred
      simp only [beq_iff_eq] at hpred
      exact ⟨c, rfl, hpred⟩
  · intro i d hfind hcust
    simp [download_document, hfind, hcust]

/-- Witness for unowned_documents_listing_vs_download: employee 1 downloads
the ownerless document 2 of the two-document database. -/
theorem unowned_documents_listing_vs_download_witness :
    download_document dbDocs2 empPrincipal 2 = DownloadResult.sendFile ⟨2, none, 2⟩ :=
  (unowned_documents_listing_vs_download dbDocs2 empPrincipal none
    (by decide)).2 2 ⟨2, none, 2⟩ rfl rfl

/-- C9: the single-record GET endpoints for customers and contacts return
the same full record to any two principals, with no role or ownership
check: the handler body never consults the principal. -/
theorem single_record_reads_ignore_principal (db : DB) (p q : Principal)
    (i j : Nat) (c : Customer) (ct : Contact)
    (hc : db.findCustomer i = some c) (hct : db.findContact j = some ct) :
    get_customer db p i = some c
    ∧ get_customer db q i = some c
    ∧ get_contact db p j = some ct
    ∧ get_contact db q j = some ct :=
  ⟨hc, hc, hct, hct⟩

/-- Witness for single_record_reads_ignore_principal: employee 1, who does
not own customer 5 (assigned to user 2), reads the same full record as the
manager. -/
theorem single_record_reads_ignore_principal_witness :
    get_customer dbReads empPrincipal 5 = some ⟨5, some 2⟩
    ∧ get_customer dbReads mgrPrincipal 5 = some ⟨5, some 2⟩
    ∧ get_contact dbReads empPrincipal 3 = some ⟨3, 5⟩
    ∧ get_contact dbReads mgrPrincipal 3 = some ⟨3, 5⟩ :=
  single_record_reads_ignore_principal dbReads empPrincipal mgrPrincipal 5 3
    ⟨5, some 2⟩ ⟨3, 5⟩ rfl rfl

/-- C10: for an existing activity, update and delete are performed exactly
when the caller is admin, manager, or the owner of the activity; a denied
request returns the 403 Permission denied error with the database state
unchanged. -/
theorem activity_mutation_owner_or_elevated (db : DB) (p : Principal)
    (i : Nat) (data : ActivityUpdateData) (a : Activity)
    (hfind : db.findActivity i = some a) :
    ((p.is_admin || p.is_manager || (a.user_id == p.id)) = false →
      update_activity db p i data = (Except.error ApiError.permissionDenied, db)
      ∧ delete_activity db p i = (Except.error ApiError.permissionDenied, db))
    ∧ ((p.is_admin || p.is_manager || (a.user_id == p.id)) = true →
      (update_activity db p i data).1 = Except.ok "Activity updated successfully"
      ∧ (update_activity db p i data).2.activities
          = db.activities.map (fun x => if x.id == i then apply_activity_update data x else x)
      ∧ (delete_activity db p i).1 = Except.ok "Activity deleted successfully"
      ∧ (delete_activity db p i).2.activities
          = db.activities.eraseP (fun x => x.id == i)) := by
  constructor <;> intro h <;>
    simp [update_activity, delete_activity, hfind, h]

/-- Witness for activity_mutation_owner_or_elevated: employee 1 is denied
on the activity owned by user 2 and the state is returned unchanged. -/
theorem activity_mutation_owner_or_elevated_witness :
    update_activity dbAct empPrincipal 1 noUpdate
        = (Except.error ApiError.permissionDenied, dbAct)
    ∧ delete_activity dbAct empPrincipal 1
        = (Except.error ApiError.permissionDenied, dbAct) :=
  (activity_mutation_owner_or_elevated dbAct empPrincipal 1 noUpdate
    ⟨1, "call client", none, "call", 2, none, false⟩ rfl).1 (by decide)

end OpenCrm
